import Mathlib

/-!
Shallow embedding of the payment and fulfillment pipeline of the
telegrambothuiyuan bot (files `database.py`, `bot.py`, `usdtpay.py`).

Conventions:
* Ledger balances (`user_balances.balance`, a `DECIMAL(10,3)` column) are
  integers counted in milli-USDT, so `50.000 USDT = 50000`.
* Deposit-order amounts (`usdtpay.amount`, `DECIMAL(10,4)`) are integers
  counted in 10⁻⁴ USDT.
* The MySQL tables become lists of rows inside a state record; a SQL
  `SELECT ... LIMIT 1` becomes `List.find?`, an `UPDATE ... WHERE` becomes a
  `List.map` guarded on the row key, an `INSERT` an append.
* The code is sequential per drain pass (one job-queue callback at a time), so
  transactions are modelled by which updates become part of the returned state:
  a rolled-back transaction contributes nothing, a committed one contributes
  its writes.  Where two different connections interleave (the drain loop in
  `bot.py` mixes an outer buffered connection with helpers that open and
  commit their own connection), the model applies the writes in commit order
  and notes this next to the definition.
-/

/-! ### Premium queue data model (`database.py`) -/

/-- Status column of `premium_queue`: ENUM(`pending`, `processing`, `completed`, `failed`). -/
inductive TaskStatus where
  | pending
  | processing
  | completed
  | failed
deriving DecidableEq, Repr

/-- One row of `premium_queue`. -/
structure QueueTask where
  id : Nat
  telegramId : Nat
  username : String
  duration : Nat
  status : TaskStatus
  retryCount : Nat
  errorMessage : Option String
deriving DecidableEq, Repr

/-- Status column of `purchase_orders`: ENUM(`成功`, `失败`, `重复`). -/
inductive PurchaseStatus where
  | success
  | failure
  | duplicate
deriving DecidableEq, Repr

/-- One row of `purchase_orders` (the audit table).  The random
`order_id` string is not modelled; no claim depends on it. -/
structure PurchaseOrder where
  telegramId : Nat
  username : String
  duration : Nat
  amount : Int
  status : PurchaseStatus
deriving DecidableEq, Repr

/-- One row of `completed_orders` (the idempotency registry), keyed by the
provider-issued `req_id`. -/
structure CompletedOrder where
  reqId : String
  telegramId : Nat
  username : String
  duration : Nat
  amount : Int
  txHash : String
deriving DecidableEq, Repr

/-- The committed MySQL state used by the premium pipeline.  `balances` is
`user_balances` (the stored `username` column is not modelled; no claim
reads it). -/
structure PremiumDB where
  balances : List (Nat × Int)
  purchaseOrders : List PurchaseOrder
  completedOrders : List CompletedOrder
  queue : List QueueTask
deriving DecidableEq, Repr

/-- The balance the SQL `SELECT balance FROM user_balances WHERE telegram_id = %s`
sees: the stored row, or 0.0 when no row exists. -/
def currentBalance (db : PremiumDB) (id : Nat) : Int :=
  (db.balances.lookup id).getD 0

/-- Models `database.get_balance`: reads the row and returns zero when it
is absent; a pure read, the state comes back unchanged. -/
def get_balance (db : PremiumDB) (id : Nat) : Int × PremiumDB :=
  (currentBalance db id, db)

/-- The `INSERT ... ON DUPLICATE KEY UPDATE balance = %s` of
`database.set_balance`: replace the row if the key exists, else insert it. -/
def balancesUpsert : List (Nat × Int) → Nat → Int → List (Nat × Int)
  | [], id, v => [(id, v)]
  | (k, b) :: rest, id, v =>
    if k = id then (k, v) :: rest else (k, b) :: balancesUpsert rest id v

/-- The `ValueError` message prefix of `database.set_balance`
("余额不足: ..."); the formatted amounts are not modelled. -/
def insufficientFundsMsg : String := "余额不足"

/-- Models `database.set_balance(telegram_id, amount, conn, cursor)`: read the row
under `FOR UPDATE`, compute `new = current + amount`, raise when `new < 0`
(nothing has been written at that point; the enclosing transaction is rolled
back by the caller), else upsert and return the new balance. -/
def set_balance (db : PremiumDB) (id : Nat) (amount : Int) :
    Except String (Int × PremiumDB) :=
  if currentBalance db id + amount < 0 then Except.error insufficientFundsMsg
  else
    Except.ok (currentBalance db id + amount,
      { db with balances := balancesUpsert db.balances id (currentBalance db id + amount) })

/-- Models `database.record_purchase_order`: append an audit row. -/
def record_purchase_order (db : PremiumDB) (telegramId : Nat) (username : String)
    (duration : Nat) (amount : Int) (status : PurchaseStatus) : PremiumDB :=
  { db with purchaseOrders := db.purchaseOrders ++
      [{ telegramId := telegramId, username := username, duration := duration,
         amount := amount, status := status }] }

/-- Models `database.is_order_completed`: `SELECT req_id FROM completed_orders WHERE req_id = %s`. -/
def is_order_completed (db : PremiumDB) (reqId : String) : Bool :=
  db.completedOrders.any (fun o => decide (o.reqId = reqId))

/-- Models `database.record_completed_order`: check-then-insert; returns `false` and
writes nothing when the key is already present. -/
def record_completed_order (db : PremiumDB) (reqId : String) (telegramId : Nat)
    (username : String) (duration : Nat) (amount : Int) (txHash : String) :
    Bool × PremiumDB :=
  if is_order_completed db reqId then (false, db)
  else
    (true, { db with completedOrders := db.completedOrders ++
        [{ reqId := reqId, telegramId := telegramId, username := username,
           duration := duration, amount := amount, txHash := txHash }] })

/-- Models `database.add_to_premium_queue`: insert a `pending` task with
`retry_count = 0`; the `AUTO_INCREMENT` id is modelled as `length + 1`. -/
def add_to_premium_queue (db : PremiumDB) (telegramId : Nat) (username : String)
    (duration : Nat) : Nat × PremiumDB :=
  (db.queue.length + 1,
   { db with queue := db.queue ++
       [{ id := db.queue.length + 1, telegramId := telegramId, username := username,
          duration := duration, status := TaskStatus.pending, retryCount := 0,
          errorMessage := none }] })

/-- Models `database.get_next_queue_task`: select the oldest `pending` row (rows are
kept in creation order, so `find?` is `ORDER BY created_at ASC LIMIT 1`), flip
it to `processing`, commit, and hand back the fields read before the flip. -/
def get_next_queue_task (db : PremiumDB) : Option (QueueTask × PremiumDB) :=
  match db.queue.find? (fun t => decide (t.status = TaskStatus.pending)) with
  | none => none
  | some t =>
    let claimed := db.queue.map fun u =>
      if u.id = t.id then { u with status := TaskStatus.processing } else u
    some (t, { db with queue := claimed })

/-- Models `database.update_queue_task_status`: for `failed`, one UPDATE also sets
`error_message` and `retry_count = retry_count + 1`; any other status only
rewrites `status`. -/
def update_queue_task_status (db : PremiumDB) (taskId : Nat) (status : TaskStatus)
    (errorMessage : Option String) : PremiumDB :=
  let updated := db.queue.map fun t =>
    if t.id = taskId then
      if status = TaskStatus.failed then
        { t with
            status := TaskStatus.failed,
            errorMessage := errorMessage,
            retryCount := t.retryCount + 1 }
      else
        { t with status := status }
    else t
  { db with queue := updated }

/-! ### The drain loop (`bot.py`: `process_purchase`, `process_premium_queue`) -/

/-- Models `bot.process_purchase`: `conn.begin()`; read the balance through
`get_balance` (its own connection, committed data); raise when it does not
cover `actual_amount`; otherwise debit through `set_balance`, append a
`成功` `purchase_orders` row, `conn.commit()`.  On any exception the
transaction is rolled back, which the `Except.error` result models: the
caller keeps the pre-call state. -/
def process_purchase (db : PremiumDB) (userId : Nat) (username : String)
    (duration : Nat) (actualAmount : Int) : Except String (Int × PremiumDB) :=
  if (get_balance db userId).1 < actualAmount then Except.error insufficientFundsMsg
  else
    match set_balance db userId (-actualAmount) with
    | Except.error e => Except.error e
    | Except.ok (newBalance, db₁) =>
      Except.ok (newBalance,
        record_purchase_order db₁ userId username duration actualAmount
          PurchaseStatus.success)

/-- The `max_retries` constant of `bot.process_premium_queue`. -/
def maxRetries : Nat := 3

/-- Stand-in for `str(e)` of a `TelegramError` raised by
`context.bot.send_message`; the claims never inspect the text. -/
def notifyFailedMsg : String := "通知失败"

/-- Error message used by the retry-cap branch ("超过最大重试次数"). -/
def maxRetriesExceededMsg : String := "超过最大重试次数"

/-- Python's `str(e)` for the `IndexError` raised at bot.py:506 when the
provider message contains no settlement-id marker. -/
def indexErrorMsg : String := "list index out of range"

/-- Stand-in for the `decimal.InvalidOperation` raised by `Decimal(str(None))`
when `process_purchase` is handed a `None` amount; unreachable through
`activate_premium`, which always attaches an amount to a success. -/
def invalidAmountMsg : String := "InvalidOperation"

/-- The `duration_text` of `premium_service.activate_premium`:
`"1 year" if duration == 12 else f"{duration} months"`. -/
def durationText (duration : Nat) : String :=
  if duration = 12 then "1 year" else toString duration ++ " months"

/-- The generic failure string returned by the exception handler of
`activate_premium` (premium_service.py:495).  The handler also has two other
fixed failure strings (username not found, invalid duration); which one comes
back is immaterial to every claim, so the flow below carries the selected
string explicitly. -/
def activationGenericFailureMsg : String := "激活失败，请稍后重试或联系管理员"

/-- The early-duplicate success message of premium_service.py:437:
`f"用户 {username} 的 {duration_text} Premium 已激活，无需重复操作"`.
It contains no `"订单号: "` marker for any username free of the ASCII colon
(the `^@(\w+)$` gate in `bot.handle_username` admits only word characters,
never `:` or a space). -/
def activationDuplicateMsg (username : String) (dt : String) : String :=
  "用户 " ++ username ++ " 的 " ++ dt ++ " Premium 已激活，无需重复操作"

/-- How the external interactions inside one `activate_premium` call go:
either some step before a settlement id exists fails (search, price check,
wallet balance, `initGiftPremiumRequest`), or a `req_id` with its price is
issued and then `rest` says whether a later step (confirm, decode, TON
transfer) fails or everything succeeds (`none`).  Failure constructors carry
the user-facing string the exception handler maps the error to. -/
inductive ProviderFlow where
  | fails (failureMessage : String)
  | settles (reqId : String) (payAmount : Int) (rest : Option String)
deriving DecidableEq, Repr

/-- Models `premium_service.activate_premium` as the drain consumes it — the
returned `(success, message, actual_amount)` triple:

* any pre-settlement exception returns `(False, <failure string>, None)`;
* once `req_id` exists, `is_order_completed(req_id)` (line 435) may return
  the early-duplicate success, whose message does NOT contain `"订单号: "`;
* otherwise a later-step exception returns failure — and when the TON
  transfer itself succeeds, line 481 calls `record_completed_order(req_id,
  telegram_id, username, duration, amount, tx_hash)` with 6 arguments for 8
  required parameters (`conn` and `cursor` have no defaults, database.py:284),
  so Python raises `TypeError` at argument binding, the generic handler
  catches it, and the call returns failure.  The genuine-success return at
  line 483 is unreachable: no producible success message carries the
  `"订单号: "` marker. -/
def activate_premium (db : PremiumDB) (username : String) (duration : Nat)
    (flow : ProviderFlow) : Bool × String × Option Int :=
  match flow with
  | ProviderFlow.fails failureMessage => (false, failureMessage, none)
  | ProviderFlow.settles reqId payAmount rest =>
    if is_order_completed db reqId then
      (true, activationDuplicateMsg username (durationText duration), some payAmount)
    else
      match rest with
      | some failureMessage => (false, failureMessage, none)
      | none => (false, activationGenericFailureMsg, none)

/-- The settlement-id marker `"订单号: "` that bot.py:506 splits on. -/
def reqIdMarker : String := "订单号: "

/-- The newline the parsed segment is cut at (`split("\\n")[0]`). -/
def newlineChar : Char := '\n'

/-- Suffix of `l` after the first occurrence of `sep`, or `none` when `sep`
does not occur: the substring search behind Python's `split(sep)[1]`. -/
def splitFirstAfter (sep : List Char) : List Char → Option (List Char)
  | [] => none
  | c :: rest =>
    if sep.isPrefixOf (c :: rest) then some ((c :: rest).drop sep.length)
    else splitFirstAfter sep rest

/-- Models `message.split("订单号: ")[1].split("\n")[0]` of bot.py:506:
`none` when the marker does not occur, in which case the `[1]` subscript
raises `IndexError` into the drain's generic handler.  (The messages the
provider layer produces contain the marker at most once, so the suffix after
its first occurrence is Python's segment `[1]`.) -/
def extractReqId (message : String) : Option String :=
  match splitFirstAfter reqIdMarker.data message.data with
  | none => none
  | some suffix => some (String.mk (suffix.takeWhile (fun c => c != newlineChar)))

/-- The body of the `while` loop of `bot.process_premium_queue` for one
claimed task.  `flow` is how the provider interaction inside
`activate_premium` goes; `notifyOk` is whether `context.bot.send_message`
succeeds.

Commit structure of the source, reflected here:
* the retry-cap branch and every exception caught by the generic handler —
  the insufficient-balance `ValueError`, the bot.py:506 `IndexError` on a
  marker-free success message — reach `update_queue_task_status(task_id,
  "failed", ...)`, which commits on its own connection (and increments
  `retry_count`);
* `record_purchase_order` (failure and duplicate branches) and
  `record_completed_order` run on the drain's outer connection, whose writes
  are only committed when the `async with get_db()` block exits cleanly —
  i.e. after the notification succeeded; a notification error rolls them back
  and falls into the generic handler, which marks the task `failed` once
  more on a fresh connection;
* `process_purchase` begins and commits its own transaction on that outer
  connection before `record_completed_order` runs, so its debit and audit row
  survive a later rollback.
Writes on different tables commute, so each branch below applies the
committed writes in commit order.

The arms behind a successful `extractReqId` transcribe bot.py:507-525
faithfully, but `activate_premium` cannot steer the drain into them: its only
success message is the marker-free duplicate one, so every success lands in
the `IndexError` arm (see `drain_never_debits`). -/
def process_queue_task (prices : Nat → Int) (db : PremiumDB) (t : QueueTask)
    (flow : ProviderFlow) (notifyOk : Bool) : PremiumDB :=
  if maxRetries ≤ t.retryCount then
    update_queue_task_status db t.id TaskStatus.failed (some maxRetriesExceededMsg)
  else if (get_balance db t.telegramId).1 < prices t.duration then
    update_queue_task_status db t.id TaskStatus.failed (some insufficientFundsMsg)
  else
    match activate_premium db t.username t.duration flow with
    | (false, message, _) =>
      let dbQ := update_queue_task_status db t.id TaskStatus.failed (some message)
      if notifyOk then
        record_purchase_order dbQ t.telegramId t.username t.duration 0
          PurchaseStatus.failure
      else
        update_queue_task_status dbQ t.id TaskStatus.failed (some notifyFailedMsg)
    | (true, message, actualAmount) =>
      match extractReqId message with
      | none =>
        update_queue_task_status db t.id TaskStatus.failed (some indexErrorMsg)
      | some reqId =>
        if is_order_completed db reqId then
          let dbQ := update_queue_task_status db t.id TaskStatus.completed none
          if notifyOk then
            record_purchase_order dbQ t.telegramId t.username t.duration 0
              PurchaseStatus.duplicate
          else
            update_queue_task_status dbQ t.id TaskStatus.failed (some notifyFailedMsg)
        else
          match actualAmount with
          | none =>
            update_queue_task_status db t.id TaskStatus.failed (some invalidAmountMsg)
          | some actual =>
            match process_purchase db t.telegramId t.username t.duration actual with
            | Except.error e =>
              update_queue_task_status db t.id TaskStatus.failed (some e)
            | Except.ok (_, db₁) =>
              let dbQ := update_queue_task_status db₁ t.id TaskStatus.completed none
              if notifyOk then
                (record_completed_order dbQ reqId t.telegramId t.username t.duration
                  actual "N/A").2
              else
                update_queue_task_status dbQ t.id TaskStatus.failed (some notifyFailedMsg)

/-- Models `bot.process_premium_queue(context, max_tasks)`: claim and process tasks
until none are pending or `max_tasks` (the fuel, 5 by default) is spent.
`oracle` supplies, per claimed task, the provider outcome and whether the
notification goes through. -/
def process_premium_queue (prices : Nat → Int)
    (oracle : QueueTask → ProviderFlow × Bool) : Nat → PremiumDB → PremiumDB
  | 0, db => db
  | Nat.succ fuel, db =>
    match get_next_queue_task db with
    | none => db
    | some (t, db₁) =>
      process_premium_queue prices oracle fuel
        (process_queue_task prices db₁ t (oracle t).1 (oracle t).2)

/-- Read one queue row by primary key. -/
def taskById (db : PremiumDB) (taskId : Nat) : Option QueueTask :=
  db.queue.find? (fun t => decide (t.id = taskId))

/-! ### Claim C5: `set_balance` -/

/-- Claim C5: `set_balance` fails with the insufficient-funds error exactly when
`current + delta < 0` (and then nothing was written, matching the raise before
any INSERT); otherwise it persists and returns exactly `current + delta`, so
this operation never stores a negative balance. -/
theorem set_balance_spec (db : PremiumDB) (id : Nat) (amount : Int) :
    (set_balance db id amount = Except.error insufficientFundsMsg ↔
      currentBalance db id + amount < 0)
  ∧ (∀ nb db', set_balance db id amount = Except.ok (nb, db') →
      nb = currentBalance db id + amount ∧ 0 ≤ nb ∧
      db'.balances.lookup id = some nb) := by
  have hup : ∀ bs v, (balancesUpsert bs id v).lookup id = some v := by
    intro bs v
    induction bs with
    | nil => simp [balancesUpsert, List.lookup]
    | cons p rest ih =>
      by_cases hk : p.1 = id
      · simp [balancesUpsert, hk, List.lookup]
      · have : (id == p.1) = false := by
          simp [beq_iff_eq]
          omega
        simp [balancesUpsert, hk, List.lookup, this, ih]
  by_cases h : currentBalance db id + amount < 0
  · refine ⟨by simp [set_balance, h], ?_⟩
    intro nb db' hok
    simp [set_balance, h] at hok
  · refine ⟨by simp [set_balance, h], ?_⟩
    intro nb db' hok
    simp only [set_balance, if_neg h] at hok
    injection hok with hpair
    injection hpair with h1 h2
    subst h1
    subst h2
    refine ⟨rfl, by omega, ?_⟩
    simpa using hup db.balances (currentBalance db id + amount)

/-- Witness for C5 at a concrete account: balance 50.000, delta −29.800. -/
theorem set_balance_spec_witness :
    ((20200 : Int) = currentBalance
        { balances := [(7, 50000)], purchaseOrders := [], completedOrders := [],
          queue := [] } 7 + (-29800)
      ∧ (0 : Int) ≤ 20200
      ∧ (PremiumDB.balances
          { balances := [(7, 20200)], purchaseOrders := [], completedOrders := [],
            queue := [] }).lookup 7 = some 20200) :=
  (set_balance_spec
      { balances := [(7, 50000)], purchaseOrders := [], completedOrders := [],
        queue := [] } 7 (-29800)).2 20200
      { balances := [(7, 20200)], purchaseOrders := [], completedOrders := [],
        queue := [] } (by rfl)

/-! ### Claim C10: `get_balance` on a missing row -/

/-- Claim C10: for an account with no `user_balances` row, `get_balance`
returns exactly 0 and performs no write, so a never-seen account reads like a
zero-balance one. -/
theorem get_balance_missing_row (db : PremiumDB) (id : Nat)
    (h : db.balances.lookup id = none) :
    get_balance db id = (0, db) := by
  simp [get_balance, currentBalance, h]

/-- Witness for C10: account 9 has no row in a one-row table. -/
theorem get_balance_missing_row_witness :
    get_balance
      { balances := [(5, 777)], purchaseOrders := [], completedOrders := [],
        queue := [] } 9
      = (0, { balances := [(5, 777)], purchaseOrders := [], completedOrders := [],
              queue := [] }) :=
  get_balance_missing_row _ 9 (by decide)

/-! ### Claim C1: the happy-path scenario -/

/-- The tier prices (`PRICES` from `welcome.json`, external configuration):
the scenario's tier nominally costs 30.00 USDT. -/
def nominalPrices : Nat → Int := fun d =>
  if d = 3 then 30000 else if d = 6 then 55000 else 100000

/-- C1 fixture: account 1001 holds 50.000 USDT and one purchase for tier 3 has
been enqueued through `add_to_premium_queue`. -/
def c1db : PremiumDB :=
  (add_to_premium_queue
    { balances := [(1001, 50000)], purchaseOrders := [], completedOrders := [],
      queue := [] } 1001 "alice" 3).2

/-- C1 fixture: the provider issues settlement id "R1" priced 29.80 and every
later step up to and including the TON transfer succeeds; notifications are
deliverable. -/
def c1oracle : QueueTask → ProviderFlow × Bool :=
  fun _ => (ProviderFlow.settles "R1" 29800 none, true)

/-- Claim C1, evaluated at the scenario's input: balance 50.000, nominal tier
price 30.00, the provider settles "R1" at realized cost 29.80 — but
`activate_premium` then raises `TypeError` at premium_service.py:481
(`record_completed_order` called with 6 of its 8 required arguments) and
returns failure, so the drain takes the failure branch: the balance stays
50.000 (not the claimed 20.200), no `completed_orders` row for "R1" exists,
the task ends `failed` with `retry_count` 1 (not `completed`), and a
zero-amount `失败` audit row is recorded. -/
theorem drain_scenario_ends_failed :
    (process_premium_queue nominalPrices c1oracle 5 c1db).balances.lookup 1001
        = some 50000
  ∧ (process_premium_queue nominalPrices c1oracle 5 c1db).completedOrders = []
  ∧ taskById (process_premium_queue nominalPrices c1oracle 5 c1db) 1
        = some { id := 1, telegramId := 1001, username := "alice", duration := 3,
                 status := TaskStatus.failed, retryCount := 1,
                 errorMessage := some activationGenericFailureMsg }
  ∧ (process_premium_queue nominalPrices c1oracle 5 c1db).purchaseOrders
        = [{ telegramId := 1001, username := "alice", duration := 3,
             amount := 0, status := PurchaseStatus.failure }] := by
  decide

/-! ### Claim C2: what a failed provider call does to the task -/

/-- C2 fixture: account 1001 funded, one pending task with `retry_count = 0`. -/
def c2db : PremiumDB :=
  { balances := [(1001, 50000)], purchaseOrders := [], completedOrders := [],
    queue := [{ id := 1, telegramId := 1001, username := "bob", duration := 3,
                status := TaskStatus.pending, retryCount := 0, errorMessage := none }] }

/-- C2 fixture: the provider call fails (the generic failure message of
`activate_premium`); the notification succeeds. -/
def c2oracle : QueueTask → ProviderFlow × Bool :=
  fun _ => (ProviderFlow.fails "激活失败，请稍后重试或联系管理员", true)

/-- Claim C2, evaluated at the failing input: a task whose provider call fails
while `retry_count = 0 < 3` ends the drain pass in status `failed` with
`retry_count = 1` — not back in `pending` as the claim states — and a further
drain pass finds nothing to claim (`get_next_queue_task` selects only
`pending` rows), so the task is never reprocessed and the retry cap in
`process_premium_queue` is unreachable for it. -/
theorem failure_marks_task_failed_not_pending :
    taskById (process_premium_queue nominalPrices c2oracle 5 c2db) 1
        = some { id := 1, telegramId := 1001, username := "bob", duration := 3,
                 status := TaskStatus.failed, retryCount := 1,
                 errorMessage := some "激活失败，请稍后重试或联系管理员" }
  ∧ get_next_queue_task (process_premium_queue nominalPrices c2oracle 5 c2db) = none := by
  decide

/-! ### Claim C3: insufficient funds at drain time -/

/-- C3 fixture: account 1001 holds only 10.000 USDT, below the 30.00 tier
price; one pending task with `retry_count = 0`. -/
def c3db : PremiumDB :=
  { balances := [(1001, 10000)], purchaseOrders := [], completedOrders := [],
    queue := [{ id := 1, telegramId := 1001, username := "bob", duration := 3,
                status := TaskStatus.pending, retryCount := 0, errorMessage := none }] }

/-- C3 fixture: the provider never gets called on this path; the oracle value
is irrelevant. -/
def c3oracle : QueueTask → ProviderFlow × Bool :=
  fun _ => (ProviderFlow.fails "激活失败", true)

/-- Counterexample to claim C3: when the drain-time balance re-check fails,
the `ValueError` lands in the generic exception handler, so the task's
`retry_count` IS incremented (1, not the claimed 0) and no purchase row is
recorded at all. -/
theorem insufficient_funds_increments_retry_cex :
    taskById (process_premium_queue nominalPrices c3oracle 5 c3db) 1
        = some { id := 1, telegramId := 1001, username := "bob", duration := 3,
                 status := TaskStatus.failed, retryCount := 1,
                 errorMessage := some insufficientFundsMsg }
  ∧ (process_premium_queue nominalPrices c3oracle 5 c3db).purchaseOrders = []
  ∧ ¬ (taskById (process_premium_queue nominalPrices c3oracle 5 c3db) 1).map
        (fun u => u.retryCount) = some 0 := by
  decide

/-- Amended claim C3: a drain-time balance below the tier's nominal price is
handled by the generic failure path — the task goes to `failed` through
`update_queue_task_status` (which increments `retry_count` and records the
error) and neither the purchase audit table nor any balance is touched. -/
theorem insufficient_funds_failure_path (prices : Nat → Int) (db : PremiumDB)
    (t : QueueTask) (flow : ProviderFlow) (notifyOk : Bool)
    (h1 : t.retryCount < maxRetries)
    (h2 : (get_balance db t.telegramId).1 < prices t.duration) :
    process_queue_task prices db t flow notifyOk
        = update_queue_task_status db t.id TaskStatus.failed (some insufficientFundsMsg)
  ∧ (process_queue_task prices db t flow notifyOk).balances = db.balances
  ∧ (process_queue_task prices db t flow notifyOk).purchaseOrders
        = db.purchaseOrders := by
  have hcap : ¬ maxRetries ≤ t.retryCount := by omega
  refine ⟨?_, ?_, ?_⟩ <;>
    simp only [process_queue_task, if_neg hcap, if_pos h2] <;> rfl

/-- Witness for the amended C3 at the concrete fixture. -/
theorem insufficient_funds_failure_path_witness :
    process_queue_task nominalPrices c3db
        { id := 1, telegramId := 1001, username := "bob", duration := 3,
          status := TaskStatus.processing, retryCount := 0, errorMessage := none }
        (ProviderFlow.fails "激活失败") true
      = update_queue_task_status c3db 1 TaskStatus.failed (some insufficientFundsMsg) :=
  (insufficient_funds_failure_path nominalPrices c3db _ _ true (by decide) (by decide)).1

/-! ### Claim C4: a registered settlement id at drain time -/

/-- C4 fixture: "R1" is already registered in `completed_orders`; a funded
account retries the same fulfillment. -/
def c4db : PremiumDB :=
  { balances := [(1001, 50000)], purchaseOrders := [],
    completedOrders := [{ reqId := "R1", telegramId := 1001, username := "alice",
                          duration := 3, amount := 29800, txHash := "N/A" }],
    queue := [{ id := 2, telegramId := 1001, username := "alice", duration := 3,
                status := TaskStatus.processing, retryCount := 0,
                errorMessage := none }] }

/-- C4 fixture: the claimed task being replayed. -/
def c4task : QueueTask :=
  { id := 2, telegramId := 1001, username := "alice", duration := 3,
    status := TaskStatus.processing, retryCount := 0, errorMessage := none }

/-- Claim C4, evaluated at the failing input: with "R1" already registered,
the only reachable path is the early-duplicate success of
premium_service.py:437, whose message carries no `"订单号: "` marker, so
bot.py:506 raises `IndexError` and the generic handler marks the task
`failed` with `retry_count` incremented — no zero-charge `重复` audit row is
written and the task is not `completed` (the duplicate branch bot.py:507-516
is unreachable).  Only the no-debit half of the claim holds: the balance and
the registry row are untouched. -/
theorem registered_settlement_parse_failure :
    (process_queue_task nominalPrices c4db c4task
        (ProviderFlow.settles "R1" 29800 none) true).balances = c4db.balances
  ∧ (process_queue_task nominalPrices c4db c4task
        (ProviderFlow.settles "R1" 29800 none) true).completedOrders
        = c4db.completedOrders
  ∧ (process_queue_task nominalPrices c4db c4task
        (ProviderFlow.settles "R1" 29800 none) true).purchaseOrders = []
  ∧ taskById (process_queue_task nominalPrices c4db c4task
        (ProviderFlow.settles "R1" 29800 none) true) 2
        = some { id := 2, telegramId := 1001, username := "alice", duration := 3,
                 status := TaskStatus.failed, retryCount := 1,
                 errorMessage := some indexErrorMsg } := by
  decide

/-! ### Claim C6: atomicity of one fulfillment's writes -/

/-- A separator containing a character absent from the text never occurs in
it, so the suffix search fails. -/
theorem splitFirstAfter_eq_none (sep : List Char) (c : Char) (hc : c ∈ sep) :
    ∀ l : List Char, c ∉ l → splitFirstAfter sep l = none := by
  intro l
  induction l with
  | nil => intro _; rfl
  | cons a rest ih =>
    intro hl
    have hpre : sep.isPrefixOf (a :: rest) = false := by
      cases hb : sep.isPrefixOf (a :: rest) with
      | false => rfl
      | true =>
        have hp : sep <+: a :: rest := List.isPrefixOf_iff_prefix.mp hb
        exact absurd (hp.subset hc) hl
    simp only [splitFirstAfter, hpre, Bool.false_eq_true, if_false]
    exact ih fun hm => hl (List.mem_cons_of_mem a hm)

/-- A message without an ASCII colon cannot contain the `"订单号: "` marker,
so the bot.py:506 parse fails on it. -/
theorem extractReqId_eq_none (message : String)
    (hc : (':' : Char) ∉ message.data) : extractReqId message = none := by
  have h := splitFirstAfter_eq_none reqIdMarker.data ':' (by decide) message.data hc
  simp [extractReqId, h]

/-- Claim C6, against the code: the drain performs no fulfillment Ledger or
Registry mutation at all.  For every state, every claimed task (whose
username is free of ASCII colons — guaranteed by the `^@(\w+)$` gate in
`bot.handle_username` — and whose duration is one of the three sellable
tiers of `VALID_DURATIONS`), every provider flow and either notification
outcome, processing the task leaves every balance and the whole
`completed_orders` table unchanged: a fresh settlement dies in the
`TypeError` at premium_service.py:481 and an already-registered one in the
`IndexError` at bot.py:506, so the atomic debit/SettlementRecord/audit
transaction the claim describes never executes. -/
theorem drain_never_debits (prices : Nat → Int) (db : PremiumDB) (t : QueueTask)
    (flow : ProviderFlow) (notifyOk : Bool)
    (hu : (':' : Char) ∉ t.username.data)
    (hd : t.duration = 3 ∨ t.duration = 6 ∨ t.duration = 12) :
    (process_queue_task prices db t flow notifyOk).balances = db.balances
  ∧ (process_queue_task prices db t flow notifyOk).completedOrders
      = db.completedOrders := by
  by_cases hcap : maxRetries ≤ t.retryCount
  · simp only [process_queue_task, if_pos hcap]
    exact ⟨rfl, rfl⟩
  · by_cases hbal : (get_balance db t.telegramId).1 < prices t.duration
    · simp only [process_queue_task, if_neg hcap, if_pos hbal]
      exact ⟨rfl, rfl⟩
    · cases flow with
      | fails m =>
        simp only [process_queue_task, if_neg hcap, if_neg hbal, activate_premium]
        cases notifyOk
        · exact ⟨rfl, rfl⟩
        · exact ⟨rfl, rfl⟩
      | settles reqId payAmount rest =>
        cases hdup : is_order_completed db reqId with
        | true =>
          have hcolon : (':' : Char) ∉
              (activationDuplicateMsg t.username (durationText t.duration)).data := by
            intro hmem
            rcases hd with h | h | h <;> rw [h] at hmem <;>
              simp only [activationDuplicateMsg, String.data_append,
                List.mem_append] at hmem <;>
              rcases hmem with (((h1 | h1) | h1) | h1) | h1 <;>
                first
                | exact absurd h1 (by decide)
                | exact hu h1
          have hnone := extractReqId_eq_none _ hcolon
          simp only [process_queue_task, if_neg hcap, if_neg hbal, activate_premium,
            hdup, if_true, hnone]
          exact ⟨rfl, rfl⟩
        | false =>
          cases rest with
          | none =>
            simp only [process_queue_task, if_neg hcap, if_neg hbal,
              activate_premium, hdup, Bool.false_eq_true, if_false]
            cases notifyOk
            · exact ⟨rfl, rfl⟩
            · exact ⟨rfl, rfl⟩
          | some m =>
            simp only [process_queue_task, if_neg hcap, if_neg hbal,
              activate_premium, hdup, Bool.false_eq_true, if_false]
            cases notifyOk
            · exact ⟨rfl, rfl⟩
            · exact ⟨rfl, rfl⟩

/-- C6 fixture: the claimed task (funded account, tier 3). -/
def c6task : QueueTask :=
  { id := 1, telegramId := 1001, username := "alice", duration := 3,
    status := TaskStatus.processing, retryCount := 0, errorMessage := none }

/-- C6 fixture: account 1001 holds 50.000 USDT; "R1" is not yet registered. -/
def c6db : PremiumDB :=
  { balances := [(1001, 50000)], purchaseOrders := [], completedOrders := [],
    queue := [c6task] }

/-- Witness for C6 at a concrete input: the provider settles "R1" at 29.80
and the transfer succeeds, yet no balance moves and no settlement row
appears. -/
theorem drain_never_debits_witness :
    (process_queue_task nominalPrices c6db c6task
        (ProviderFlow.settles "R1" 29800 none) true).balances = c6db.balances
  ∧ (process_queue_task nominalPrices c6db c6task
        (ProviderFlow.settles "R1" 29800 none) true).completedOrders
      = c6db.completedOrders :=
  drain_never_debits nominalPrices c6db c6task
    (ProviderFlow.settles "R1" 29800 none) true (by decide) (by decide)

/-! ### USDT deposit subsystem (`usdtpay.py`)

Deposit-order amounts (`DECIMAL(10,4)`) and the balances they credit are
integers counted in 10⁻⁴ USDT (exact for that column type), so
`10.0070 USDT = 100070`; `usdtpay.status` is the stored TINYINT (0 = open,
1 = matched, 2 = canceled) and `expires_at` / `now` are abstract instants
ordered as naturals.  Only `round4` computes with rationals, to model the
real-valued `base_amount + random.uniform(...)` before Python's
`round(·, 4)` lands it back on the 10⁻⁴ grid. -/

/-- One row of `usdtpay`. -/
structure UsdtOrder where
  outTradeNo : String
  telegramId : Nat
  expiresAt : Nat
  status : Nat
  amount : Int
deriving DecidableEq, Repr

/-- One row of `okusdt`. -/
structure OkUsdtOrder where
  outTradeNo : String
  telegramId : Nat
  amount : Int
deriving DecidableEq, Repr

/-- The MySQL state touched by the deposit matcher. -/
structure UsdtDB where
  orders : List UsdtOrder
  balances : List (Nat × Int)
  okOrders : List OkUsdtOrder
deriving DecidableEq, Repr

/-- The `UPDATE user_balances SET balance = balance + %s WHERE telegram_id = %s`
of `handle_usdt_payment`: add to every row with that key, insert nothing. -/
def creditBalance : List (Nat × Int) → Nat → Int → List (Nat × Int)
  | [], _, _ => []
  | (k, b) :: rest, id, amt =>
    if k = id then (k, b + amt) :: creditBalance rest id amt
    else (k, b) :: creditBalance rest id amt

/-- Models `usdtpay.handle_usdt_payment(trc20_balance, context)`: look up one open
order whose amount equals the observed transfer; if found, flip it to matched
(status 1), credit the owner's balance, append the `okusdt` audit row, and
commit — all on one connection, so the three writes land together. -/
def handle_usdt_payment (db : UsdtDB) (amount : Int) : UsdtDB :=
  match db.orders.find? (fun p => decide (p.amount = amount) && (p.status == 0)) with
  | none => db
  | some o =>
    let flipped := db.orders.map fun p =>
      if p.outTradeNo = o.outTradeNo then { p with status := 1 } else p
    { db with
        orders := flipped,
        balances := creditBalance db.balances o.telegramId amount,
        okOrders := db.okOrders ++
          [{ outTradeNo := o.outTradeNo, telegramId := o.telegramId, amount := amount }] }

/-- Python's `round(x, 4)` as used on `base_amount + offset`, landing on the
10⁻⁴ grid (ties are not exercised by any claim, so round-half-up stands in
for the float's round-half-even). -/
def round4 (q : ℚ) : Int := ⌊q * 10000 + 1 / 2⌋

/-- Models `usdtpay.generate_unique_usdt_amount(base_amount)`: re-roll
`round(base_amount + random.uniform(0.001, 0.01), 4)` while the candidate
equals some currently-open order's amount.  The pseudo-random stream is the
explicit `offsets` list; the `while True` loop surfaces as `none` when the
stream is exhausted. -/
def generate_unique_usdt_amount (openAmounts : List Int) (baseAmount : ℚ) :
    List ℚ → Option Int
  | [] => none
  | offset :: rest =>
    if round4 (baseAmount + offset) ∈ openAmounts then
      generate_unique_usdt_amount openAmounts baseAmount rest
    else some (round4 (baseAmount + offset))

/-- Result of one `context.bot.send_message` attempt inside
`cleanup_expired_orders`: delivered, rejected as blocked/forbidden (403), or
some other `TelegramError`. -/
inductive NotifyResult where
  | ok
  | blocked
  | error
deriving DecidableEq, Repr

/-- The `while not notified and retries < 3` notification loop of
`cleanup_expired_orders`, counting attempts: `ok` and `blocked` both set
`notified` and stop; any other error consumes one retry. -/
def runNotify : Nat → (Nat → NotifyResult) → Nat → Nat
  | 0, _, k => k
  | Nat.succ fuel, res, k =>
    match res k with
    | NotifyResult.error => runNotify fuel res (k + 1)
    | _ => k + 1

/-- Models `usdtpay.cleanup_expired_orders`: walk all orders; every open order whose
expiry has passed is notified (bounded attempts via `runNotify`) and collected
into `to_delete`, then deleted by primary key in one commit.  Returns the new
state and, per deleted order, how many notification attempts were made. -/
def cleanup_expired_orders (db : UsdtDB) (now : Nat)
    (res : String → Nat → NotifyResult) : UsdtDB × List (String × Nat) :=
  let toDelete := db.orders.filter fun o => o.status == 0 && decide (o.expiresAt < now)
  let kept := db.orders.filter fun o =>
    !(decide (o.outTradeNo ∈ toDelete.map fun p => p.outTradeNo))
  ({ db with orders := kept },
   toDelete.map fun o => (o.outTradeNo, runNotify 3 (res o.outTradeNo) 0))

/-! ### Claim C7: a duplicate transfer observation credits once -/

/-- Balance lookup through the credit UPDATE: the row with the key gains the
amount, a missing row stays missing. -/
theorem lookup_creditBalance (bs : List (Nat × Int)) (id : Nat) (amt : Int) :
    (creditBalance bs id amt).lookup id = (bs.lookup id).map (fun b => b + amt) := by
  induction bs with
  | nil => rfl
  | cons p rest ih =>
    by_cases hk : p.1 = id
    · simp [creditBalance, hk, List.lookup]
    · have hne : (id == p.1) = false := by
        simp [beq_iff_eq]
        omega
      simp [creditBalance, hk, List.lookup, hne, ih]

/-- When no open order carries the observed amount, the payment handler
changes nothing (the second observation of an already-matched transfer). -/
theorem handle_usdt_payment_noop (db : UsdtDB) (a : Int)
    (h : db.orders.find? (fun p => decide (p.amount = a) && (p.status == 0)) = none) :
    handle_usdt_payment db a = db := by
  simp [handle_usdt_payment, h]

/-- Claim C7: when an observed transfer amount matches exactly one open
deposit order, processing the observation credits the owner once and flips
the order to matched in the same committed step, and processing the very same
observation a second time finds no open order with that amount and changes
nothing. -/
theorem duplicate_transfer_credits_once (db : UsdtDB) (o : UsdtOrder) (a b : Int)
    (h1 : db.orders.find? (fun p => decide (p.amount = a) && (p.status == 0)) = some o)
    (h2 : ∀ p ∈ db.orders, p.amount = a → p.status = 0 → p.outTradeNo = o.outTradeNo)
    (h3 : db.balances.lookup o.telegramId = some b) :
    (handle_usdt_payment db a).balances.lookup o.telegramId = some (b + a)
  ∧ { o with status := 1 } ∈ (handle_usdt_payment db a).orders
  ∧ handle_usdt_payment (handle_usdt_payment db a) a = handle_usdt_payment db a := by
  have hmem : o ∈ db.orders := List.mem_of_find?_eq_some h1
  have hbal : (handle_usdt_payment db a).balances
      = creditBalance db.balances o.telegramId a := by
    simp [handle_usdt_payment, h1]
  have horders : (handle_usdt_payment db a).orders
      = db.orders.map
          (fun p => if p.outTradeNo = o.outTradeNo then { p with status := 1 } else p) := by
    simp [handle_usdt_payment, h1]
  refine ⟨?_, ?_, ?_⟩
  · rw [hbal, lookup_creditBalance, h3]
    rfl
  · rw [horders]
    exact List.mem_map.mpr ⟨o, hmem, by simp⟩
  · refine handle_usdt_payment_noop _ _ ?_
    rw [horders, List.find?_eq_none]
    intro p hp
    obtain ⟨q, hq, rfl⟩ := List.mem_map.mp hp
    by_cases hqo : q.outTradeNo = o.outTradeNo
    · simp [hqo]
    · simp only [if_neg hqo, Bool.and_eq_true, decide_eq_true_eq, beq_iff_eq, not_and]
      intro ha hs
      exact absurd (h2 q hq ha hs) hqo

/-- C7 fixture: one open order for 10.0070 USDT owned by account 42, whose
balance row holds 5.0000 USDT. -/
def c7db : UsdtDB :=
  { orders := [{ outTradeNo := "ord1", telegramId := 42, expiresAt := 50,
                 status := 0, amount := 100070 }],
    balances := [(42, 50000)], okOrders := [] }

/-- C7 fixture: the matching open order. -/
def c7order : UsdtOrder :=
  { outTradeNo := "ord1", telegramId := 42, expiresAt := 50, status := 0,
    amount := 100070 }

/-- Witness for C7 at the concrete fixture: the credit lands once and the
second observation of the same transfer is a no-op. -/
theorem duplicate_transfer_credits_once_witness :
    (handle_usdt_payment c7db 100070).balances.lookup 42 = some (50000 + 100070)
  ∧ { c7order with status := 1 } ∈ (handle_usdt_payment c7db 100070).orders
  ∧ handle_usdt_payment (handle_usdt_payment c7db 100070) 100070
      = handle_usdt_payment c7db 100070 :=
  duplicate_transfer_credits_once c7db c7order 100070 50000
    (by decide) (by decide) (by decide)

/-! ### Claim C8: unique deposit amounts -/

/-- Claim C8: whenever the generator returns an amount, that amount is
`round4(requested + offset)` for one of the drawn offsets — each of which
`random.uniform(0.001, 0.01)` keeps inside `[0.001, 0.01]` — and it differs
from every currently-open order's amount, so no two simultaneously open
orders can share an amount. -/
theorem unique_amount_spec (openAmounts : List Int) (baseAmount : ℚ) (offsets : List ℚ)
    (h : ∀ off ∈ offsets, (1/1000 : ℚ) ≤ off ∧ off ≤ 1/100) :
    ∀ r, generate_unique_usdt_amount openAmounts baseAmount offsets = some r →
      (∃ off, (1/1000 : ℚ) ≤ off ∧ off ≤ 1/100 ∧ r = round4 (baseAmount + off))
      ∧ r ∉ openAmounts := by
  revert h
  induction offsets with
  | nil =>
    intro h r hr
    simp [generate_unique_usdt_amount] at hr
  | cons off rest ih =>
    intro h r hr
    by_cases hmem : round4 (baseAmount + off) ∈ openAmounts
    · have hrest : ∀ x ∈ rest, (1/1000 : ℚ) ≤ x ∧ x ≤ 1/100 :=
        fun x hx => h x (List.mem_cons_of_mem _ hx)
      exact ih hrest r (by simpa [generate_unique_usdt_amount, hmem] using hr)
    · have hsome : some (round4 (baseAmount + off)) = some r := by
        simpa [generate_unique_usdt_amount, hmem] using hr
      obtain rfl : round4 (baseAmount + off) = r := Option.some.inj hsome
      have hoff := h off (List.mem_cons_self off rest)
      exact ⟨⟨off, hoff.1, hoff.2, rfl⟩, hmem⟩

/-- Witness for C8: base 10, one open order at 10.0050; the draw 0.005
collides, the re-roll 0.007 yields 10.0070, distinct from the open order. -/
theorem unique_amount_spec_witness :
    generate_unique_usdt_amount [100050] 10 [1/200, 7/1000] = some 100070
  ∧ (100070 : Int) ∉ ([100050] : List Int) := by
  have hr1 : round4 (10 + 1/200) = 100050 := by
    rw [round4, Int.floor_eq_iff]
    norm_num
  have hr2 : round4 (10 + 7/1000) = 100070 := by
    rw [round4, Int.floor_eq_iff]
    norm_num
  have hgen : generate_unique_usdt_amount [100050] 10 [1/200, 7/1000]
      = some 100070 := by
    simp only [generate_unique_usdt_amount, hr1, hr2]
    decide
  refine ⟨hgen, ?_⟩
  refine (unique_amount_spec [100050] 10 [1/200, 7/1000] ?_ 100070 hgen).2
  intro off hoff
  fin_cases hoff <;> norm_num

/-! ### Claim C9: the expiry sweep -/

/-- The notification loop makes at most `fuel` attempts beyond its start. -/
theorem runNotify_le (fuel : Nat) (res : Nat → NotifyResult) (k : Nat) :
    runNotify fuel res k ≤ k + fuel := by
  induction fuel generalizing k with
  | zero => simp [runNotify]
  | succ n ih =>
    cases h : res k with
    | error =>
      have := ih (k + 1)
      simp only [runNotify, h]
      omega
    | ok =>
      simp only [runNotify, h]
      omega
    | blocked =>
      simp only [runNotify, h]
      omega

/-- Claim C9: one sweep keeps an order iff it is not an expired open order
(every expired open order is deleted; unexpired open orders and
matched/canceled orders stay), each deleted order's owner was notified at
most 3 times, and a blocked/forbidden response ends the notification loop at
that attempt instead of being retried. -/
theorem cleanup_expired_spec (db : UsdtDB) (now : Nat)
    (res : String → Nat → NotifyResult)
    (hN : (db.orders.map (fun o => o.outTradeNo)).Nodup) :
    (∀ o ∈ db.orders,
      (o ∈ (cleanup_expired_orders db now res).1.orders ↔
        ¬(o.status = 0 ∧ o.expiresAt < now)))
  ∧ (∀ p ∈ (cleanup_expired_orders db now res).2, p.2 ≤ 3)
  ∧ (∀ f : Nat → NotifyResult, ∀ fuel k, f k = NotifyResult.blocked →
      runNotify (fuel + 1) f k = k + 1) := by
  refine ⟨?_, ?_, ?_⟩
  · intro o ho
    constructor
    · intro hkept hexp
      have hk2 := (List.mem_filter.mp hkept).2
      simp only [Bool.not_eq_true', decide_eq_false_iff_not] at hk2
      refine hk2 (List.mem_map.mpr ⟨o, List.mem_filter.mpr ⟨ho, ?_⟩, rfl⟩)
      simp [hexp.1, hexp.2]
    · intro hnot
      refine List.mem_filter.mpr ⟨ho, ?_⟩
      simp only [Bool.not_eq_true', decide_eq_false_iff_not]
      intro hmem
      obtain ⟨q, hqDel, hq⟩ := List.mem_map.mp hmem
      have hq1 := (List.mem_filter.mp hqDel).1
      have hq2 := (List.mem_filter.mp hqDel).2
      simp only [Bool.and_eq_true, beq_iff_eq, decide_eq_true_eq] at hq2
      have hqe : q = o := List.inj_on_of_nodup_map hN hq1 ho hq
      subst hqe
      exact hnot ⟨hq2.1, hq2.2⟩
  · intro p hp
    simp only [cleanup_expired_orders, List.mem_map] at hp
    obtain ⟨q, hq, rfl⟩ := hp
    simpa using runNotify_le 3 (res q.outTradeNo) 0
  · intro f fuel k hblk
    simp [runNotify, hblk]

/-- C9 fixture: an expired open order "a", a live open order "b", an expired
but already-matched order "c". -/
def c9db : UsdtDB :=
  { orders := [
      { outTradeNo := "a", telegramId := 1, expiresAt := 10, status := 0, amount := 3 },
      { outTradeNo := "b", telegramId := 2, expiresAt := 200, status := 0, amount := 5 },
      { outTradeNo := "c", telegramId := 3, expiresAt := 10, status := 1, amount := 6 }],
    balances := [(1, 0)], okOrders := [] }

/-- C9 fixture: every notification attempt raises a retryable error. -/
def c9res : String → Nat → NotifyResult := fun _ _ => NotifyResult.error

/-- C9 fixture: the expired open order. -/
def c9a : UsdtOrder :=
  { outTradeNo := "a", telegramId := 1, expiresAt := 10, status := 0, amount := 3 }

/-- Witness for C9 at the concrete fixture: the expired open order "a" is
gone after the sweep at time 100. -/
theorem cleanup_expired_spec_witness :
    (c9db.orders.map (fun o => o.outTradeNo)).Nodup
  ∧ (c9a ∈ (cleanup_expired_orders c9db 100 c9res).1.orders ↔
      ¬(c9a.status = 0 ∧ c9a.expiresAt < 100)) :=
  ⟨by decide, (cleanup_expired_spec c9db 100 c9res (by decide)).1 c9a (by decide)⟩
